import Mathlib

/-!
Shallow embedding of the pupil-concentration tracker
(`PupilConcentrationTrackerComponent`, the configurable variant): the
geometry extractor (`isEyeOpen`, `calculatePupilSize`), the variability and
stability estimators, the concentration scorer, the exponential smoothing
stage, and the per-frame state machine (`processFaceDetection`,
`updateConcentration`, `resetCurrentMetrics`, `resetCalibration`,
`recalibrate`).

Numbers are modelled exactly by `ℚ`.  The square root used by
`Math.hypot` and by the variability estimators is passed everywhere as an
abstract parameter `sq : ℚ → ℚ`, because the exact real square root is not
computable on `ℚ`; no theorem below depends on particular values of `sq`
except where a hypothesis states them.  For the analysis of the division
by a zero mean, a second, IEEE-faithful model of the estimators returns
`Option ℚ`, with `none` standing for NaN.
-/

namespace PupilTracker

/-- A 2-D landmark point, as produced by the face-mesh detector. -/
structure Landmark where
  x : ℚ
  y : ℚ
deriving DecidableEq

/-- The keypoint array of a detected face.  A JS array access can yield
`undefined`, so entries are `Option Landmark` and out-of-range reads give
`none`. -/
abbrev Keypoints := List (Option Landmark)

/-- Which eye a geometry query refers to. -/
inductive Side
  | left
  | right
deriving DecidableEq

/-- `keypoints[i]` with JS semantics: `none` when the index is out of
range or the stored entry is missing. -/
def kpAt (kps : Keypoints) (i : ℕ) : Option Landmark :=
  kps.getD i none

/-- `Math.hypot dx dy = sqrt (dx*dx + dy*dy)`, with the square root kept
abstract. -/
def hypot (sq : ℚ → ℚ) (dx dy : ℚ) : ℚ :=
  sq (dx * dx + dy * dy)

/-- The tracker configuration object (`PupilTrackerConfig`). -/
structure PupilTrackerConfig where
  frameRate : ℚ
  smoothingFactor : ℚ
  sensitivity : ℚ
  calibrationFrames : ℕ
  maxHistorySize : ℕ
  minPupilSize : ℚ
  maxPupilSize : ℚ
deriving DecidableEq

/-- The component's default configuration literal. -/
def defaultConfig : PupilTrackerConfig :=
  { frameRate := 30, smoothingFactor := 3/10, sensitivity := 2,
    calibrationFrames := 30, maxHistorySize := 100,
    minPupilSize := 2, maxPupilSize := 50 }

/-- A small configuration for witnesses: the default configuration with a
two-frame calibration window. -/
def wCfg : PupilTrackerConfig :=
  { frameRate := 30, smoothingFactor := 3/10, sensitivity := 2,
    calibrationFrames := 2, maxHistorySize := 100,
    minPupilSize := 2, maxPupilSize := 50 }

/-- Eyelid/corner landmark indices used by `isEyeOpen`. -/
structure EyeLidIdx where
  top : ℕ
  bottom : ℕ
  leftCorner : ℕ
  rightCorner : ℕ

/-- The per-side eyelid landmark index table of `isEyeOpen`. -/
def eyeLidIndices : Side → EyeLidIdx
  | .left => ⟨159, 145, 33, 133⟩
  | .right => ⟨386, 374, 362, 263⟩

/-- `isEyeOpen`: aspect-ratio test of vertical eyelid distance against
horizontal corner distance, failing closed on short keypoint arrays,
missing landmarks, and a zero horizontal distance. -/
def isEyeOpen (sq : ℚ → ℚ) (kps : Keypoints) (side : Side) : Bool :=
  if kps.length < 478 then false else
  let idx := eyeLidIndices side
  match kpAt kps idx.top, kpAt kps idx.bottom,
        kpAt kps idx.leftCorner, kpAt kps idx.rightCorner with
  | some topLid, some bottomLid, some leftCorner, some rightCorner =>
    let verticalDist := hypot sq (topLid.x - bottomLid.x) (topLid.y - bottomLid.y)
    let horizontalDist := hypot sq (leftCorner.x - rightCorner.x) (leftCorner.y - rightCorner.y)
    if horizontalDist = 0 then false
    else decide (verticalDist / horizontalDist > 1/10)
  | _, _, _, _ => false

/-- Iris landmark indices used by `calculatePupilSize`. -/
structure IrisIdx where
  top : ℕ
  bottom : ℕ
  left : ℕ
  right : ℕ

/-- The per-side iris landmark index table of `calculatePupilSize`. -/
def irisIndices : Side → IrisIdx
  | .left => ⟨474, 476, 477, 475⟩
  | .right => ⟨469, 471, 472, 470⟩

/-- `calculatePupilSize`: mean of the vertical and horizontal iris-boundary
distances in pixels, or 0 when the array is short or an iris point is
missing. -/
def calculatePupilSize (sq : ℚ → ℚ) (kps : Keypoints) (side : Side) : ℚ :=
  if kps.length < 478 then 0 else
  let idx := irisIndices side
  match kpAt kps idx.top, kpAt kps idx.bottom,
        kpAt kps idx.left, kpAt kps idx.right with
  | some t, some b, some l, some r =>
    let verticalDist := hypot sq (t.x - b.x) (t.y - b.y)
    let horizontalDist := hypot sq (l.x - r.x) (l.y - r.y)
    (verticalDist + horizontalDist) / 2
  | _, _, _, _ => 0

/-- `calculatePupilVariability`: 0 below 10 samples, otherwise
`min 1 (sqrt variance / mean)` over the last 10 samples (idealized
arithmetic: division by zero yields 0 here; see the JS model below). -/
def calculatePupilVariability (sq : ℚ → ℚ) (history : List ℚ) : ℚ :=
  if history.length < 10 then 0 else
  let recent := history.drop (history.length - 10)
  let mean := recent.sum / (recent.length : ℚ)
  let variance := (recent.map fun b => (b - mean) ^ 2).sum / (recent.length : ℚ)
  min 1 (sq variance / mean)

/-- `calculateStability`: 0 below 20 samples, otherwise
`min 1 (max 0 (1 - sqrt variance / mean))` over the last 20 samples. -/
def calculateStability (sq : ℚ → ℚ) (history : List ℚ) : ℚ :=
  if history.length < 20 then 0 else
  let recent := history.drop (history.length - 20)
  let mean := recent.sum / (recent.length : ℚ)
  let variance := (recent.map fun b => (b - mean) ^ 2).sum / (recent.length : ℚ)
  min 1 (max 0 (1 - sq variance / mean))

/-- IEEE-faithful model of `calculatePupilVariability`; `none` is NaN.
When the window mean is the float 0: `Math.sqrt variance` is 0 exactly when
`variance` is 0 (the variance is a mean of squares, hence nonnegative), and
then `0/0` is NaN and `Math.min 1 NaN` is NaN; when the variance is
positive, `positive/0` is `+inf` and `Math.min 1 inf = 1`.  When the mean
is nonzero the computation is finite and agrees with the idealized model. -/
def calculatePupilVariabilityJS (sq : ℚ → ℚ) (history : List ℚ) : Option ℚ :=
  if history.length < 10 then some 0 else
  let recent := history.drop (history.length - 10)
  let mean := recent.sum / (recent.length : ℚ)
  let variance := (recent.map fun b => (b - mean) ^ 2).sum / (recent.length : ℚ)
  if mean = 0 then (if variance = 0 then none else some 1)
  else some (min 1 (sq variance / mean))

/-- IEEE-faithful model of `calculateStability`; `none` is NaN.  With a
zero mean and zero variance, `1 - 0/0` is NaN and both `Math.max` and
`Math.min` propagate it; with a zero mean and positive variance,
`1 - inf = -inf`, `Math.max 0 (-inf) = 0`, `Math.min 1 0 = 0`. -/
def calculateStabilityJS (sq : ℚ → ℚ) (history : List ℚ) : Option ℚ :=
  if history.length < 20 then some 0 else
  let recent := history.drop (history.length - 20)
  let mean := recent.sum / (recent.length : ℚ)
  let variance := (recent.map fun b => (b - mean) ^ 2).sum / (recent.length : ℚ)
  if mean = 0 then (if variance = 0 then none else some 0)
  else some (min 1 (max 0 (1 - sq variance / mean)))

/-- The dilation part of `calculateConcentrationScore`: the `dilationScore`
local of the source, split out for reuse. -/
def dilationScoreOf (dil : ℚ) : ℚ :=
  if dil ≥ 1 then
    let optimalRange := min 1 (max 0 ((dil - 1) / (2/10)))
    40 + optimalRange * 20
  else
    let constriction := (1 - max (7/10) dil) / (3/10)
    40 - constriction * 40

/-- `calculateConcentrationScore`: dilation part (0-60), stability part
(0-30) driven by variability and sensitivity, focus part (0-10) driven by
stability, summed and clamped to [0,100]. -/
def calculateConcentrationScore (cfg : PupilTrackerConfig)
    (dil variability stability : ℚ) : ℚ :=
  let dilationScore := dilationScoreOf dil
  let stabilityScore := max 0 ((1 - min 1 (variability * cfg.sensitivity)) * 30)
  let focusScore := max 0 (stability * 10)
  max 0 (min 100 (dilationScore + stabilityScore + focusScore))

/-- `smoothValue`: exponential moving average with the configured
smoothing factor. -/
def smoothValue (cfg : PupilTrackerConfig) (currentValue newValue : ℚ) : ℚ :=
  currentValue * cfg.smoothingFactor + newValue * (1 - cfg.smoothingFactor)

/-- The mutable component state read and written by the per-frame engine. -/
structure TrackerState where
  config : PupilTrackerConfig
  concentrationLevel : ℚ
  leftPupilSize : ℚ
  rightPupilSize : ℚ
  baselinePupilSize : ℚ
  pupilSizeHistory : List ℚ
  isCalibrated : Bool
  calibrationProgress : ℚ
deriving DecidableEq

/-- `resetCurrentMetrics`: zero the pupil sizes, set the level to 0 and
then smooth it with 0 (the source zeroes the level before smoothing). -/
def resetCurrentMetrics (st : TrackerState) : TrackerState :=
  { st with leftPupilSize := 0, rightPupilSize := 0,
            concentrationLevel := smoothValue st.config 0 0 }

/-- `updateConcentration`: gate the average pupil size, push it to the
bounded history, update the calibration progress, auto-calibrate once the
window is full, and update the smoothed concentration level. -/
def updateConcentration (sq : ℚ → ℚ) (st : TrackerState) : TrackerState :=
  let cfg := st.config
  let averagePupilSize := (st.leftPupilSize + st.rightPupilSize) / 2
  if averagePupilSize ≤ 0 ∨ averagePupilSize < cfg.minPupilSize ∨
      averagePupilSize > cfg.maxPupilSize then
    { st with concentrationLevel := smoothValue cfg st.concentrationLevel 0 }
  else
    let pushed := st.pupilSizeHistory ++ [averagePupilSize]
    let history := if pushed.length > cfg.maxHistorySize then pushed.tail else pushed
    let progress := min 100 ((history.length : ℚ) / (cfg.calibrationFrames : ℚ) * 100)
    let calibration :=
      if st.isCalibrated = false ∧ cfg.calibrationFrames ≤ history.length then
        let validHistory := (history.take cfg.calibrationFrames).filter
          fun s => decide (cfg.minPupilSize < s ∧ s < cfg.maxPupilSize)
        if (validHistory.length : ℚ) ≥ (cfg.calibrationFrames : ℚ) * (5/10) then
          (validHistory.sum / (validHistory.length : ℚ), true)
        else (st.baselinePupilSize, st.isCalibrated)
      else (st.baselinePupilSize, st.isCalibrated)
    let baseline := calibration.1
    let calibrated := calibration.2
    if calibrated = true ∧ baseline > 0 then
      let dil := averagePupilSize / baseline
      let variability := calculatePupilVariability sq history
      let stability := calculateStability sq history
      let concentrationScore := calculateConcentrationScore cfg dil variability stability
      { st with pupilSizeHistory := history, calibrationProgress := progress,
                baselinePupilSize := baseline, isCalibrated := calibrated,
                concentrationLevel := smoothValue cfg st.concentrationLevel concentrationScore }
    else
      { st with pupilSizeHistory := history, calibrationProgress := progress,
                baselinePupilSize := baseline, isCalibrated := calibrated }

/-- `processFaceDetection` (drawing elided): reset on a closed eye,
otherwise store both pupil sizes and either run `updateConcentration` or
decay the level when a pupil size is not positive. -/
def processFaceDetection (sq : ℚ → ℚ) (kps : Keypoints) (st : TrackerState) :
    TrackerState :=
  let leftEyeOpen := isEyeOpen sq kps .left
  let rightEyeOpen := isEyeOpen sq kps .right
  if leftEyeOpen = false ∨ rightEyeOpen = false then
    resetCurrentMetrics st
  else
    let st1 := { st with leftPupilSize := calculatePupilSize sq kps .left,
                         rightPupilSize := calculatePupilSize sq kps .right }
    if st1.leftPupilSize > 0 ∧ st1.rightPupilSize > 0 then
      updateConcentration sq st1
    else
      { st1 with concentrationLevel := smoothValue st1.config st1.concentrationLevel 0 }

/-- One invocation of the detection callback: either no face was found,
or a face without keypoints (an early return), or a face with keypoints. -/
inductive Frame
  | noFace
  | face (keypoints : Option Keypoints)

/-- Dispatch of one frame, as done by `startDetection`. -/
def runFrame (sq : ℚ → ℚ) (st : TrackerState) : Frame → TrackerState
  | .noFace => resetCurrentMetrics st
  | .face none => st
  | .face (some kps) => processFaceDetection sq kps st

/-- Feeding a whole sequence of frames to the engine. -/
def runFrames (sq : ℚ → ℚ) (st : TrackerState) (frames : List Frame) : TrackerState :=
  frames.foldl (runFrame sq) st

/-- The spec-level `observe avgDiameter` entry point: both per-eye sizes
read `d`, so `updateConcentration` sees the average `d`. -/
def observe (sq : ℚ → ℚ) (st : TrackerState) (d : ℚ) : TrackerState :=
  updateConcentration sq { st with leftPupilSize := d, rightPupilSize := d }

/-- Feeding a sequence of average-diameter samples. -/
def runSamples (sq : ℚ → ℚ) (st : TrackerState) (samples : List ℚ) : TrackerState :=
  samples.foldl (observe sq) st

/-- The component's initial field values for a given configuration. -/
def initState (cfg : PupilTrackerConfig) : TrackerState :=
  { config := cfg, concentrationLevel := 0, leftPupilSize := 0,
    rightPupilSize := 0, baselinePupilSize := 0, pupilSizeHistory := [],
    isCalibrated := false, calibrationProgress := 0 }

/-- `resetCalibration`: discard baseline, history, progress and level;
the configuration and the last pupil sizes are untouched. -/
def resetCalibration (st : TrackerState) : TrackerState :=
  { st with isCalibrated := false, baselinePupilSize := 0,
            pupilSizeHistory := [], calibrationProgress := 0,
            concentrationLevel := 0 }

/-- `recalibrate`: `resetCalibration` guarded by the tracking flag. -/
def recalibrate (isTracking : Bool) (st : TrackerState) : TrackerState :=
  if isTracking then resetCalibration st else st

/-- Modelled from the spec: the dilation part of the score as §4.4 states
it, with divisor 0.3 on the upper branch and an explicit clamp on both
branches.  Kept for comparison with `dilationScoreOf`. -/
def specDilationScore (dil : ℚ) : ℚ :=
  if dil ≥ 1 then 40 + min 1 (max 0 ((dil - 1) / (3/10))) * 20
  else 40 - min 1 (max 0 ((1 - max (7/10) dil) / (3/10))) * 40

/-- The spec's contract for `eyeOpen`, written the way §4.1 states it: at
least 478 landmarks, all four eyelid/corner points present, a nonzero
horizontal distance, and aspect ratio above the 0.1 threshold. -/
def EyeOpenSpec (sq : ℚ → ℚ) (kps : Keypoints) (side : Side) : Prop :=
  478 ≤ kps.length ∧
  ∃ t b l r, kpAt kps (eyeLidIndices side).top = some t ∧
    kpAt kps (eyeLidIndices side).bottom = some b ∧
    kpAt kps (eyeLidIndices side).leftCorner = some l ∧
    kpAt kps (eyeLidIndices side).rightCorner = some r ∧
    hypot sq (l.x - r.x) (l.y - r.y) ≠ 0 ∧
    1/10 < hypot sq (t.x - b.x) (t.y - b.y) / hypot sq (l.x - r.x) (l.y - r.y)

/-- A concrete keypoint array for witnesses: 478 points at the origin
except the left eye's eyelid-top / corner and iris-top / iris-left points,
placed so that with `sq := id` the left eye is open with aspect ratio 1
and the left pupil diameter is 1. -/
def wKps : Keypoints :=
  (((((List.replicate 478 (some ⟨0, 0⟩ : Option Landmark)).set
    159 (some ⟨0, 1⟩)).set 133 (some ⟨1, 0⟩)).set
    474 (some ⟨0, 1⟩)).set 477 (some ⟨1, 0⟩))

/-- A concrete keypoint array whose 478 points all coincide, so both
horizontal reference distances are `sq 0`: with `sq 0 = 0` every eye is
reported closed. -/
def wKpsClosed : Keypoints :=
  List.replicate 478 (some ⟨0, 0⟩ : Option Landmark)

/-- Agreement of two states on every field except the transient per-frame
pupil sizes: these are the fields `resetCalibration` restores to their
initial values. -/
def CoreAgree (s t : TrackerState) : Prop :=
  s.config = t.config ∧ s.concentrationLevel = t.concentrationLevel ∧
  s.baselinePupilSize = t.baselinePupilSize ∧
  s.pupilSizeHistory = t.pupilSizeHistory ∧
  s.isCalibrated = t.isCalibrated ∧
  s.calibrationProgress = t.calibrationProgress

section DilationScoreLemmas

lemma dilationScoreOf_nonneg (r : ℚ) : 0 ≤ dilationScoreOf r := by
  unfold dilationScoreOf
  split_ifs with h
  · have h1 : (0:ℚ) ≤ min 1 (max 0 ((r - 1) / (2/10))) :=
      le_min (by norm_num) (le_max_left 0 _)
    linarith
  · have h0 : (7:ℚ)/10 ≤ max (7/10) r := le_max_left _ _
    have h2 : (1 - max (7/10) r) / (3/10) ≤ 1 := by
      rw [div_le_one (by norm_num)]; linarith
    linarith

lemma dilationScoreOf_le_60 (r : ℚ) : dilationScoreOf r ≤ 60 := by
  unfold dilationScoreOf
  split_ifs with h
  · have h1 : min 1 (max 0 ((r - 1) / (2/10))) ≤ 1 := min_le_left _ _
    linarith
  · have h4 : max (7/10) r ≤ 1 := max_le (by norm_num) (by linarith [not_le.mp h])
    have h2 : (0:ℚ) ≤ (1 - max (7/10) r) / (3/10) :=
      div_nonneg (by linarith) (by norm_num)
    linarith

lemma dilationScoreOf_mono : Monotone dilationScoreOf := by
  intro a b hab
  unfold dilationScoreOf
  split_ifs with ha hb hb
  · have h1 : (a - 1) / (2/10) ≤ (b - 1) / (2/10) :=
      div_le_div_of_nonneg_right (by linarith) (by norm_num)
    have h2 : min 1 (max 0 ((a - 1) / (2/10))) ≤ min 1 (max 0 ((b - 1) / (2/10))) :=
      min_le_min le_rfl (max_le_max le_rfl h1)
    linarith
  · exact absurd (le_trans ha hab) hb
  · have h4 : max (7/10) a ≤ 1 := max_le (by norm_num) (by linarith [not_le.mp ha])
    have h5 : (0:ℚ) ≤ (1 - max (7/10) a) / (3/10) :=
      div_nonneg (by linarith) (by norm_num)
    have h3 : (0:ℚ) ≤ min 1 (max 0 ((b - 1) / (2/10))) :=
      le_min (by norm_num) (le_max_left 0 _)
    linarith
  · have h1 : max (7/10) a ≤ max (7/10) b := max_le_max le_rfl hab
    have h2 : (1 - max (7/10) b) / (3/10) ≤ (1 - max (7/10) a) / (3/10) :=
      div_le_div_of_nonneg_right (by linarith) (by norm_num)
    linarith

lemma dilationScoreOf_cap {r : ℚ} (h : 12/10 ≤ r) : dilationScoreOf r = 60 := by
  unfold dilationScoreOf
  rw [if_pos (by linarith : r ≥ 1)]
  have h1 : (1:ℚ) ≤ (r - 1) / (2/10) := by
    rw [le_div_iff₀ (by norm_num)]; linarith
  rw [max_eq_right (by linarith), min_eq_left h1]; ring

lemma dilationScoreOf_lt_60 {r : ℚ} (h1 : 1 ≤ r) (h2 : r < 12/10) :
    dilationScoreOf r < 60 := by
  unfold dilationScoreOf
  rw [if_pos (by linarith : r ≥ 1)]
  have ha : (r - 1) / (2/10) < 1 := by
    rw [div_lt_one (by norm_num)]; linarith
  have hb : (0:ℚ) ≤ (r - 1) / (2/10) := div_nonneg (by linarith) (by norm_num)
  rw [max_eq_right hb, min_eq_right (le_of_lt ha)]
  linarith

lemma dilationScoreOf_floor {r : ℚ} (h : r ≤ 7/10) : dilationScoreOf r = 0 := by
  unfold dilationScoreOf
  rw [if_neg (by push_neg; linarith : ¬ r ≥ 1), max_eq_left h]
  norm_num

end DilationScoreLemmas

/-- C2 — the claim's upper-branch formula `40 + clamp((r-1)/0.3,0,1)*20`
disagrees with the code at dilation ratio 1.2: the code divides by 0.2 and
already returns the full 60 points there (also through the whole score
with the stability and focus parts zeroed), while the claimed formula
gives 160/3 and would first reach 60 at ratio 1.3. -/
theorem dilation_curve_cx :
    dilationScoreOf (12/10) = 60 ∧
    specDilationScore (12/10) = 160/3 ∧
    calculateConcentrationScore defaultConfig (12/10) 1 0 = 60 ∧
    (60 : ℚ) ≠ 160/3 := by
  refine ⟨by norm_num [dilationScoreOf], by norm_num [specDilationScore],
    by norm_num [calculateConcentrationScore, dilationScoreOf, defaultConfig], by norm_num⟩

/-- C2 (amended) — the dilation part of the score uses divisor 0.2 above
baseline: for ratio ≥ 1 it is `40 + clamp((r-1)/0.2,0,1)*20`, the cap of
60 is first reached at ratio 1.2 and never exceeded, and for ratio < 1 it
is `40 - clamp((1 - max(0.7,r))/0.3,0,1)*40` exactly as the spec states
(the clamp there is a no-op). -/
theorem dilation_curve_amended (r : ℚ) :
    (1 ≤ r → dilationScoreOf r = 40 + min 1 (max 0 ((r - 1) / (2/10))) * 20) ∧
    (12/10 ≤ r → dilationScoreOf r = 60) ∧
    (1 ≤ r → r < 12/10 → dilationScoreOf r < 60) ∧
    (r < 1 → dilationScoreOf r = 40 - min 1 (max 0 ((1 - max (7/10) r) / (3/10))) * 40) := by
  refine ⟨fun h => ?_, fun h => dilationScoreOf_cap h,
    fun h1 h2 => dilationScoreOf_lt_60 h1 h2, fun h => ?_⟩
  · unfold dilationScoreOf
    rw [if_pos (by linarith : r ≥ 1)]
  · unfold dilationScoreOf
    rw [if_neg (by push_neg; linarith : ¬ r ≥ 1)]
    have h4 : max (7/10) r ≤ 1 := max_le (by norm_num) (by linarith)
    have h5 : (1 - max (7/10) r) / (3/10) ≤ 1 := by
      rw [div_le_one (by norm_num)]; linarith [le_max_left (7/10 : ℚ) r]
    have h6 : (0:ℚ) ≤ (1 - max (7/10) r) / (3/10) :=
      div_nonneg (by linarith) (by norm_num)
    rw [max_eq_right h6, min_eq_right h5]

/-- Witness for C2 (amended), at ratios 1.3 and 1.1. -/
theorem dilation_curve_amended_witness :
    dilationScoreOf (13/10) = 60 ∧ dilationScoreOf (11/10) < 60 :=
  ⟨(dilation_curve_amended (13/10)).2.1 (by norm_num),
   (dilation_curve_amended (11/10)).2.2.1 (by norm_num) (by norm_num)⟩

section ScoreLemmas

lemma clamp0100_mono {x y : ℚ} (h : x ≤ y) :
    max 0 (min 100 x) ≤ max 0 (min 100 y) :=
  max_le_max le_rfl (min_le_min le_rfl h)

lemma clamp0100_eq_self {x : ℚ} (h0 : 0 ≤ x) (h1 : x ≤ 100) :
    max 0 (min 100 x) = x := by
  rw [min_eq_right h1, max_eq_right h0]

lemma stabilityScorePart_nonneg (c v : ℚ) :
    0 ≤ max 0 ((1 - min 1 (v * c)) * 30) := le_max_left 0 _

lemma stabilityScorePart_le_30 {c v : ℚ} (h : 0 ≤ v * c) :
    max 0 ((1 - min 1 (v * c)) * 30) ≤ 30 := by
  have h1 : (0:ℚ) ≤ min 1 (v * c) := le_min (by norm_num) h
  have h2 : (1 - min 1 (v * c)) * 30 ≤ 30 := by nlinarith
  exact max_le (by norm_num) h2

lemma stabilityScorePart_anti {c v1 v2 : ℚ} (hc : 0 ≤ c) (h : v1 ≤ v2) :
    max 0 ((1 - min 1 (v2 * c)) * 30) ≤ max 0 ((1 - min 1 (v1 * c)) * 30) := by
  have h1 : min 1 (v1 * c) ≤ min 1 (v2 * c) :=
    min_le_min le_rfl (mul_le_mul_of_nonneg_right h hc)
  exact max_le_max le_rfl (by linarith)

lemma stabilityScorePart_strict_anti {c v1 v2 : ℚ} (hc : 0 < c) (hlt : v1 < v2)
    (hone : v1 * c < 1) :
    max 0 ((1 - min 1 (v2 * c)) * 30) < max 0 ((1 - min 1 (v1 * c)) * 30) := by
  have ha : min 1 (v1 * c) = v1 * c := min_eq_right (le_of_lt hone)
  have hb : v1 * c < v2 * c := mul_lt_mul_of_pos_right hlt hc
  have hpos : 0 < (1 - v1 * c) * 30 := by nlinarith
  have h1 : max 0 ((1 - v1 * c) * 30) = (1 - v1 * c) * 30 :=
    max_eq_right (le_of_lt hpos)
  rcases le_or_lt (v2 * c) 1 with h | h
  · have hc2 : min 1 (v2 * c) = v2 * c := min_eq_right h
    rw [ha, hc2, h1]
    rcases le_or_lt ((1 - v2 * c) * 30) 0 with h2 | h2
    · rw [max_eq_left h2]; exact hpos
    · rw [max_eq_right (le_of_lt h2)]; nlinarith
  · have hc2 : min 1 (v2 * c) = 1 := min_eq_left (le_of_lt h)
    rw [ha, hc2, h1]
    simpa using hpos

lemma focusScorePart_nonneg (s : ℚ) : 0 ≤ max 0 (s * 10) := le_max_left 0 _

lemma focusScorePart_le_10 {s : ℚ} (h : s ≤ 1) : max 0 (s * 10) ≤ 10 :=
  max_le (by norm_num) (by linarith)

lemma calculateConcentrationScore_nonneg (cfg : PupilTrackerConfig) (r v s : ℚ) :
    0 ≤ calculateConcentrationScore cfg r v s := le_max_left 0 _

lemma calculateConcentrationScore_le_100 (cfg : PupilTrackerConfig) (r v s : ℚ) :
    calculateConcentrationScore cfg r v s ≤ 100 :=
  max_le (by norm_num) (min_le_left _ _)

end ScoreLemmas

/-- C8 — with variability and stability held fixed the concentration
score is monotone in the dilation ratio (hence non-decreasing on [1,∞)
and non-increasing as the ratio falls below 1), constant once the ratio
reaches the cap of 1.2, constant below the floor of 0.7; and with the
ratio and stability held fixed and a positive sensitivity, increasing
variability never increases the score and strictly reduces it while
`variability * sensitivity < 1` (for nonnegative variability and
stability ≤ 1, as the estimators produce). -/
theorem score_monotonicity (cfg : PupilTrackerConfig) :
    (∀ v s : ℚ, Monotone fun r => calculateConcentrationScore cfg r v s) ∧
    (∀ v s r1 r2 : ℚ, 12/10 ≤ r1 → 12/10 ≤ r2 →
      calculateConcentrationScore cfg r1 v s = calculateConcentrationScore cfg r2 v s) ∧
    (∀ v s r1 r2 : ℚ, r1 ≤ 7/10 → r2 ≤ 7/10 →
      calculateConcentrationScore cfg r1 v s = calculateConcentrationScore cfg r2 v s) ∧
    (0 ≤ cfg.sensitivity → ∀ r s v1 v2 : ℚ, v1 ≤ v2 →
      calculateConcentrationScore cfg r v2 s ≤ calculateConcentrationScore cfg r v1 s) ∧
    (0 < cfg.sensitivity → ∀ r s v1 v2 : ℚ, 0 ≤ v1 → v1 < v2 →
      v1 * cfg.sensitivity < 1 → s ≤ 1 →
      calculateConcentrationScore cfg r v2 s < calculateConcentrationScore cfg r v1 s) := by
  refine ⟨fun v s a b hab => ?_, fun v s r1 r2 h1 h2 => ?_, fun v s r1 r2 h1 h2 => ?_,
    fun hc r s v1 v2 hv => ?_, fun hc r s v1 v2 hv1 hlt hone hs => ?_⟩
  · unfold calculateConcentrationScore
    exact clamp0100_mono (by linarith [dilationScoreOf_mono hab])
  · unfold calculateConcentrationScore
    rw [dilationScoreOf_cap h1, dilationScoreOf_cap h2]
  · unfold calculateConcentrationScore
    rw [dilationScoreOf_floor h1, dilationScoreOf_floor h2]
  · unfold calculateConcentrationScore
    exact clamp0100_mono (by linarith [stabilityScorePart_anti hc hv])
  · unfold calculateConcentrationScore
    have hd0 := dilationScoreOf_nonneg r
    have hd1 := dilationScoreOf_le_60 r
    have hst1 : max 0 ((1 - min 1 (v1 * cfg.sensitivity)) * 30) ≤ 30 :=
      stabilityScorePart_le_30 (mul_nonneg hv1 (le_of_lt hc))
    have hst2 : max 0 ((1 - min 1 (v2 * cfg.sensitivity)) * 30) ≤ 30 :=
      stabilityScorePart_le_30 (mul_nonneg (by linarith) (le_of_lt hc))
    have hstrict := stabilityScorePart_strict_anti hc hlt hone
    have hf0 := focusScorePart_nonneg s
    have hf1 := focusScorePart_le_10 hs
    have hs10 := stabilityScorePart_nonneg cfg.sensitivity v1
    have hs20 := stabilityScorePart_nonneg cfg.sensitivity v2
    rw [clamp0100_eq_self (by linarith) (by linarith),
        clamp0100_eq_self (by linarith) (by linarith)]
    linarith

/-- Witness for C8 at the default configuration, ratio 1.1, stability 0,
variabilities 0 and 1/4. -/
theorem score_monotonicity_witness :
    calculateConcentrationScore defaultConfig (11/10) (1/4) 0 <
      calculateConcentrationScore defaultConfig (11/10) 0 0 :=
  (score_monotonicity defaultConfig).2.2.2.2 (by norm_num [defaultConfig]) (11/10) 0 0 (1/4)
    le_rfl (by norm_num) (by norm_num [defaultConfig]) (by norm_num)

/-- C7 — `isEyeOpen` returns true exactly under the spec's contract: at
least 478 landmarks, all four eyelid/corner points present, nonzero
horizontal corner distance, and vertical/horizontal ratio above the 0.1
threshold; in particular it fails closed in every other case. -/
theorem eye_open_spec_equiv (sq : ℚ → ℚ) (kps : Keypoints) (side : Side) :
    isEyeOpen sq kps side = true ↔ EyeOpenSpec sq kps side := by
  unfold isEyeOpen EyeOpenSpec
  split_ifs with hlen
  · simp only [Bool.false_eq_true, false_iff, not_and]
    intro h
    omega
  · have hlen2 : 478 ≤ kps.length := by omega
    rcases ht : kpAt kps (eyeLidIndices side).top with _ | t
    · simp [ht]
    rcases hb : kpAt kps (eyeLidIndices side).bottom with _ | b
    · simp [ht, hb]
    rcases hl : kpAt kps (eyeLidIndices side).leftCorner with _ | l
    · simp [ht, hb, hl]
    rcases hr : kpAt kps (eyeLidIndices side).rightCorner with _ | r
    · simp [ht, hb, hl, hr]
    simp only [ht, hb, hl, hr]
    constructor
    · intro h
      split_ifs at h with hz
      exact ⟨hlen2, t, b, l, r, rfl, rfl, rfl, rfl, hz, of_decide_eq_true h⟩
    · rintro ⟨-, t', b', l', r', h1, h2, h3, h4, h5, h6⟩
      cases h1; cases h2; cases h3; cases h4
      rw [if_neg h5]
      exact decide_eq_true h6

set_option maxRecDepth 8000 in
/-- Witness for C7: a concrete 478-point array with aspect ratio 1 on the
left eye is reported open. -/
theorem eye_open_spec_equiv_witness :
    isEyeOpen (fun q => q) wKps .left = true :=
  (eye_open_spec_equiv (fun q => q) wKps .left).mpr
    ⟨by rfl, ⟨0, 1⟩, ⟨0, 0⟩, ⟨0, 0⟩, ⟨1, 0⟩, by rfl, by rfl, by rfl, by rfl,
      by norm_num [hypot], by norm_num [hypot]⟩

/-- C6 — `calculatePupilSize` returns 0 when fewer than 478 landmarks are
supplied or one of the side's iris points is missing, and otherwise
returns exactly the mean of the vertical and horizontal iris-boundary
distances, with no further conversion or clamping. -/
theorem pupil_diameter_spec_equiv (sq : ℚ → ℚ) (kps : Keypoints) (side : Side) :
    (kps.length < 478 ∨ kpAt kps (irisIndices side).top = none ∨
      kpAt kps (irisIndices side).bottom = none ∨
      kpAt kps (irisIndices side).left = none ∨
      kpAt kps (irisIndices side).right = none →
      calculatePupilSize sq kps side = 0) ∧
    (∀ t b l r : Landmark, 478 ≤ kps.length →
      kpAt kps (irisIndices side).top = some t →
      kpAt kps (irisIndices side).bottom = some b →
      kpAt kps (irisIndices side).left = some l →
      kpAt kps (irisIndices side).right = some r →
      calculatePupilSize sq kps side =
        (hypot sq (t.x - b.x) (t.y - b.y) + hypot sq (l.x - r.x) (l.y - r.y)) / 2) := by
  unfold calculatePupilSize
  constructor
  · intro h
    split_ifs with hlen
    · rfl
    · rcases h with h | h | h | h | h
      · omega
      · cases ha : kpAt kps (irisIndices side).bottom <;>
          cases hc : kpAt kps (irisIndices side).left <;>
          cases hd : kpAt kps (irisIndices side).right <;> simp [h, ha, hc, hd]
      · cases ha : kpAt kps (irisIndices side).top <;>
          cases hc : kpAt kps (irisIndices side).left <;>
          cases hd : kpAt kps (irisIndices side).right <;> simp [h, ha, hc, hd]
      · cases ha : kpAt kps (irisIndices side).top <;>
          cases hc : kpAt kps (irisIndices side).bottom <;>
          cases hd : kpAt kps (irisIndices side).right <;> simp [h, ha, hc, hd]
      · cases ha : kpAt kps (irisIndices side).top <;>
          cases hc : kpAt kps (irisIndices side).bottom <;>
          cases hd : kpAt kps (irisIndices side).left <;> simp [h, ha, hc, hd]
  · intro t b l r hlen ht hb hl hr
    simp only [ht, hb, hl, hr]
    rw [if_neg (by omega)]

set_option maxRecDepth 8000 in
/-- Witness for C6: on a concrete 478-point array the left pupil diameter
evaluates to the mean of the two iris distances, here 1. -/
theorem pupil_diameter_spec_equiv_witness :
    calculatePupilSize (fun q => q) wKps .left = 1 := by
  have h := (pupil_diameter_spec_equiv (fun q => q) wKps .left).2
    ⟨0, 1⟩ ⟨0, 0⟩ ⟨1, 0⟩ ⟨0, 0⟩ (by rfl) (by rfl) (by rfl) (by rfl) (by rfl)
  rw [h]; norm_num [hypot]

section VariabilityLemmas

lemma window_mean_pos {h : List ℚ} (hpos : ∀ x ∈ h, 0 < x) (n : ℕ)
    (hlen : ¬ h.length < n) (hn : 0 < n) :
    0 < (h.drop (h.length - n)).sum / ((h.drop (h.length - n)).length : ℚ) := by
  have hlen2 : (h.drop (h.length - n)).length = n := by
    rw [List.length_drop]; omega
  have hne : h.drop (h.length - n) ≠ [] := by
    intro he
    rw [he] at hlen2
    simp at hlen2
    omega
  have hsum : 0 < (h.drop (h.length - n)).sum :=
    List.sum_pos _ (fun x hx => hpos x (List.mem_of_mem_drop hx)) hne
  apply div_pos hsum
  rw [hlen2]
  exact_mod_cast hn

end VariabilityLemmas

/-- C5 — the claimed zero-mean guard does not exist: on the all-zero
10-sample (resp. 20-sample) window both estimators compute `0/0`, which
under IEEE semantics is NaN, not the claimed 0. -/
theorem variability_zero_mean_cx :
    calculatePupilVariabilityJS (fun q => q) (List.replicate 10 0) = none ∧
    calculateStabilityJS (fun q => q) (List.replicate 20 0) = none ∧
    (none : Option ℚ) ≠ some 0 := by
  refine ⟨?_, ?_, by simp⟩
  · simp [calculatePupilVariabilityJS]
  · simp [calculateStabilityJS]

/-- C5 (amended) — both estimators are total: they return 0 below the
10- (resp. 20-) sample threshold, and on every history of strictly
positive samples (which is all the engine ever stores) the window mean is
positive, the division is safe, and the IEEE model agrees with the
idealized `min 1 (sqrt variance / mean)` (resp.
`min 1 (max 0 (1 - sqrt variance / mean))`) value; there is however no
zero-mean guard, and an all-zero window yields NaN rather than 0. -/
theorem variability_stability_total_amended :
    (∀ (sq : ℚ → ℚ) (h : List ℚ), h.length < 10 →
      calculatePupilVariability sq h = 0 ∧
      calculatePupilVariabilityJS sq h = some 0) ∧
    (∀ (sq : ℚ → ℚ) (h : List ℚ), h.length < 20 →
      calculateStability sq h = 0 ∧ calculateStabilityJS sq h = some 0) ∧
    (∀ (sq : ℚ → ℚ) (h : List ℚ), (∀ x ∈ h, 0 < x) →
      calculatePupilVariabilityJS sq h = some (calculatePupilVariability sq h) ∧
      calculateStabilityJS sq h = some (calculateStability sq h)) := by
  refine ⟨fun sq h h10 => ?_, fun sq h h20 => ?_, fun sq h hpos => ⟨?_, ?_⟩⟩
  · constructor
    · unfold calculatePupilVariability
      rw [if_pos h10]
    · unfold calculatePupilVariabilityJS
      rw [if_pos h10]
  · constructor
    · unfold calculateStability
      rw [if_pos h20]
    · unfold calculateStabilityJS
      rw [if_pos h20]
  · unfold calculatePupilVariability calculatePupilVariabilityJS
    dsimp only
    split_ifs with h10 hm hv
    · rfl
    · exact absurd hm (ne_of_gt (window_mean_pos hpos 10 h10 (by norm_num)))
    · exact absurd hm (ne_of_gt (window_mean_pos hpos 10 h10 (by norm_num)))
    · rfl
  · unfold calculateStability calculateStabilityJS
    dsimp only
    split_ifs with h20 hm hv
    · rfl
    · exact absurd hm (ne_of_gt (window_mean_pos hpos 20 h20 (by norm_num)))
    · exact absurd hm (ne_of_gt (window_mean_pos hpos 20 h20 (by norm_num)))
    · rfl

/-- Witness for C5 (amended) on a concrete all-positive history. -/
theorem variability_stability_total_witness :
    (∀ x ∈ List.replicate 10 (3:ℚ), 0 < x) ∧
    calculatePupilVariabilityJS (fun q => q) (List.replicate 10 3) =
      some (calculatePupilVariability (fun q => q) (List.replicate 10 3)) :=
  ⟨by simp, (variability_stability_total_amended.2.2 (fun q => q)
    (List.replicate 10 3) (by simp)).1⟩

section FramePathLemmas

lemma smoothValue_zero (cfg : PupilTrackerConfig) : smoothValue cfg 0 0 = 0 := by
  unfold smoothValue; ring

set_option maxRecDepth 8000 in
lemma wKpsClosed_left_closed : isEyeOpen (fun q => q) wKpsClosed .left = false := by
  have ht : kpAt wKpsClosed 159 = some ⟨0, 0⟩ := by rfl
  have hb : kpAt wKpsClosed 145 = some ⟨0, 0⟩ := by rfl
  have hl : kpAt wKpsClosed 33 = some ⟨0, 0⟩ := by rfl
  have hr : kpAt wKpsClosed 133 = some ⟨0, 0⟩ := by rfl
  have hlen : wKpsClosed.length = 478 := by rfl
  unfold isEyeOpen
  rw [if_neg (by rw [hlen]; norm_num)]
  show (match kpAt wKpsClosed 159, kpAt wKpsClosed 145, kpAt wKpsClosed 33,
      kpAt wKpsClosed 133 with
    | some topLid, some bottomLid, some leftCorner, some rightCorner =>
      let verticalDist := hypot (fun q => q) (topLid.x - bottomLid.x) (topLid.y - bottomLid.y)
      let horizontalDist := hypot (fun q => q) (leftCorner.x - rightCorner.x) (leftCorner.y - rightCorner.y)
      if horizontalDist = 0 then false
      else decide (verticalDist / horizontalDist > 1/10)
    | _, _, _, _ => false) = false
  rw [ht, hb, hl, hr]
  norm_num [hypot]

end FramePathLemmas

/-- C3 — the claim fails on eye-closed frames: from level 50 under the
default configuration, a frame whose eyes are reported closed resets the
level to 0 outright (`resetCurrentMetrics` zeroes it before smoothing),
whereas the claimed `smooth(previous, 0)` would give 15. -/
theorem eye_closed_reset_cx :
    (processFaceDetection (fun q => q) wKpsClosed
      { initState defaultConfig with concentrationLevel := 50 }).concentrationLevel = 0 ∧
    smoothValue defaultConfig 50 0 = 15 ∧ (0:ℚ) ≠ 15 := by
  refine ⟨?_, by norm_num [smoothValue, defaultConfig], by norm_num⟩
  unfold processFaceDetection
  rw [if_pos (Or.inl wKpsClosed_left_closed)]
  unfold resetCurrentMetrics smoothValue
  norm_num

/-- C3 (amended) — on a frame with either eye reported closed the new
concentration level is exactly 0 (a hard reset, discontinuous from the
previous level); on frames with both eyes open, the level decays through
`smooth(previous, 0)` both when the pupil sizes are not both positive and
when the average diameter fails the validity gate. -/
theorem invalid_frame_decay_amended (sq : ℚ → ℚ) (kps : Keypoints) (st : TrackerState) :
    (isEyeOpen sq kps .left = false ∨ isEyeOpen sq kps .right = false →
      (processFaceDetection sq kps st).concentrationLevel = 0) ∧
    (isEyeOpen sq kps .left = true → isEyeOpen sq kps .right = true →
      ¬ (calculatePupilSize sq kps .left > 0 ∧ calculatePupilSize sq kps .right > 0) →
      (processFaceDetection sq kps st).concentrationLevel =
        smoothValue st.config st.concentrationLevel 0) ∧
    (isEyeOpen sq kps .left = true → isEyeOpen sq kps .right = true →
      (calculatePupilSize sq kps .left + calculatePupilSize sq kps .right) / 2 ≤ 0 ∨
        (calculatePupilSize sq kps .left + calculatePupilSize sq kps .right) / 2 <
          st.config.minPupilSize ∨
        (calculatePupilSize sq kps .left + calculatePupilSize sq kps .right) / 2 >
          st.config.maxPupilSize →
      (processFaceDetection sq kps st).concentrationLevel =
        smoothValue st.config st.concentrationLevel 0) := by
  refine ⟨fun h => ?_, fun hl hr hnp => ?_, fun hl hr hgate => ?_⟩
  · unfold processFaceDetection
    rw [if_pos h]
    unfold resetCurrentMetrics
    simp [smoothValue_zero]
  · unfold processFaceDetection
    rw [if_neg (by simp [hl, hr])]
    dsimp only
    rw [if_neg (by simpa using hnp)]
  · unfold processFaceDetection
    rw [if_neg (by simp [hl, hr])]
    dsimp only
    split_ifs with hp
    · unfold updateConcentration
      rw [if_pos (by simpa using hgate)]
    · rfl

/-- Witness for C3 (amended): a concrete all-coincident keypoint frame is
reported eye-closed and zeroes the level from the initial state. -/
theorem invalid_frame_decay_witness :
    (isEyeOpen (fun q => q) wKpsClosed .left = false ∨
      isEyeOpen (fun q => q) wKpsClosed .right = false) ∧
    (processFaceDetection (fun q => q) wKpsClosed
      (initState defaultConfig)).concentrationLevel = 0 :=
  ⟨Or.inl wKpsClosed_left_closed,
   (invalid_frame_decay_amended (fun q => q) wKpsClosed (initState defaultConfig)).1
     (Or.inl wKpsClosed_left_closed)⟩

section EngineLevelLemmas

lemma smoothValue_mem {cfg : PupilTrackerConfig} (h0 : 0 ≤ cfg.smoothingFactor)
    (h1 : cfg.smoothingFactor ≤ 1) {c x : ℚ} (hc0 : 0 ≤ c) (hc1 : c ≤ 100)
    (hx0 : 0 ≤ x) (hx1 : x ≤ 100) :
    0 ≤ smoothValue cfg c x ∧ smoothValue cfg c x ≤ 100 := by
  unfold smoothValue
  constructor <;> nlinarith

lemma resetCurrentMetrics_level (st : TrackerState) :
    (resetCurrentMetrics st).concentrationLevel = 0 := by
  show smoothValue st.config 0 0 = 0
  exact smoothValue_zero st.config

lemma updateConcentration_config (sq : ℚ → ℚ) (st : TrackerState) :
    (updateConcentration sq st).config = st.config := by
  unfold updateConcentration
  dsimp only
  split_ifs <;> rfl

lemma updateConcentration_level_bounds (sq : ℚ → ℚ) (st : TrackerState)
    (h0 : 0 ≤ st.config.smoothingFactor) (h1 : st.config.smoothingFactor ≤ 1)
    (hl0 : 0 ≤ st.concentrationLevel) (hl1 : st.concentrationLevel ≤ 100) :
    0 ≤ (updateConcentration sq st).concentrationLevel ∧
      (updateConcentration sq st).concentrationLevel ≤ 100 := by
  unfold updateConcentration
  dsimp only
  split_ifs
  all_goals first
    | exact ⟨hl0, hl1⟩
    | exact smoothValue_mem h0 h1 hl0 hl1 le_rfl (by norm_num)
    | exact smoothValue_mem h0 h1 hl0 hl1
        (calculateConcentrationScore_nonneg _ _ _ _)
        (calculateConcentrationScore_le_100 _ _ _ _)

lemma processFaceDetection_config (sq : ℚ → ℚ) (kps : Keypoints) (st : TrackerState) :
    (processFaceDetection sq kps st).config = st.config := by
  unfold processFaceDetection
  dsimp only
  split_ifs
  · rfl
  · exact updateConcentration_config sq _
  · rfl

lemma processFaceDetection_level_bounds (sq : ℚ → ℚ) (kps : Keypoints) (st : TrackerState)
    (h0 : 0 ≤ st.config.smoothingFactor) (h1 : st.config.smoothingFactor ≤ 1)
    (hl0 : 0 ≤ st.concentrationLevel) (hl1 : st.concentrationLevel ≤ 100) :
    0 ≤ (processFaceDetection sq kps st).concentrationLevel ∧
      (processFaceDetection sq kps st).concentrationLevel ≤ 100 := by
  unfold processFaceDetection
  dsimp only
  split_ifs
  · unfold resetCurrentMetrics
    rw [smoothValue_zero]
    exact ⟨le_rfl, by norm_num⟩
  · exact updateConcentration_level_bounds sq _ h0 h1 hl0 hl1
  · exact smoothValue_mem h0 h1 hl0 hl1 le_rfl (by norm_num)

lemma runFrame_config (sq : ℚ → ℚ) (st : TrackerState) (f : Frame) :
    (runFrame sq st f).config = st.config := by
  cases f with
  | noFace => rfl
  | face ko =>
    cases ko with
    | none => rfl
    | some kps => exact processFaceDetection_config sq kps st

lemma runFrame_level_bounds (sq : ℚ → ℚ) (st : TrackerState) (f : Frame)
    (h0 : 0 ≤ st.config.smoothingFactor) (h1 : st.config.smoothingFactor ≤ 1)
    (hl0 : 0 ≤ st.concentrationLevel) (hl1 : st.concentrationLevel ≤ 100) :
    0 ≤ (runFrame sq st f).concentrationLevel ∧
      (runFrame sq st f).concentrationLevel ≤ 100 := by
  cases f with
  | noFace =>
    show 0 ≤ (resetCurrentMetrics st).concentrationLevel ∧
      (resetCurrentMetrics st).concentrationLevel ≤ 100
    rw [resetCurrentMetrics_level]
    exact ⟨le_rfl, by norm_num⟩
  | face ko =>
    cases ko with
    | none => exact ⟨hl0, hl1⟩
    | some kps => exact processFaceDetection_level_bounds sq kps st h0 h1 hl0 hl1

lemma runFrames_level_bounds (sq : ℚ → ℚ) (cfg : PupilTrackerConfig)
    (h0 : 0 ≤ cfg.smoothingFactor) (h1 : cfg.smoothingFactor ≤ 1) :
    ∀ (frames : List Frame) (st : TrackerState), st.config = cfg →
      0 ≤ st.concentrationLevel → st.concentrationLevel ≤ 100 →
      0 ≤ (runFrames sq st frames).concentrationLevel ∧
        (runFrames sq st frames).concentrationLevel ≤ 100 := by
  intro frames
  induction frames with
  | nil => intro st hc hl0 hl1; exact ⟨hl0, hl1⟩
  | cons f rest ih =>
    intro st hc hl0 hl1
    have hstep := runFrame_level_bounds sq st f (hc ▸ h0) (hc ▸ h1) hl0 hl1
    have hcfg : (runFrame sq st f).config = cfg := by rw [runFrame_config, hc]
    exact ih (runFrame sq st f) hcfg hstep.1 hstep.2

end EngineLevelLemmas

/-- C1 — from the initial state, under any smoothing factor in (0,1), the
externally visible concentration level lies in [0,100] after every frame
of every frame sequence: the raw score is clamped to [0,100] and the
exponential smoothing of values in [0,100] stays in [0,100]. -/
theorem concentrationLevel_bounded (sq : ℚ → ℚ) (cfg : PupilTrackerConfig)
    (frames : List Frame) (h0 : 0 < cfg.smoothingFactor) (h1 : cfg.smoothingFactor < 1) :
    0 ≤ (runFrames sq (initState cfg) frames).concentrationLevel ∧
      (runFrames sq (initState cfg) frames).concentrationLevel ≤ 100 :=
  runFrames_level_bounds sq cfg (le_of_lt h0) (le_of_lt h1) frames (initState cfg)
    rfl le_rfl (by norm_num [initState])

/-- Witness for C1 at the default configuration on a short concrete frame
sequence. -/
theorem concentrationLevel_bounded_witness :
    (0 < defaultConfig.smoothingFactor ∧ defaultConfig.smoothingFactor < 1) ∧
    (0 ≤ (runFrames (fun q => q) (initState defaultConfig)
        [Frame.noFace, Frame.face none]).concentrationLevel ∧
      (runFrames (fun q => q) (initState defaultConfig)
        [Frame.noFace, Frame.face none]).concentrationLevel ≤ 100) :=
  ⟨⟨by norm_num [defaultConfig], by norm_num [defaultConfig]⟩,
   concentrationLevel_bounded (fun q => q) defaultConfig [Frame.noFace, Frame.face none]
     (by norm_num [defaultConfig]) (by norm_num [defaultConfig])⟩

section ObserveLemmas

lemma observe_valid_noCalCheck (sq : ℚ → ℚ) (st : TrackerState) (d : ℚ)
    (hcal : st.isCalibrated = false)
    (hgate : ¬ (d ≤ 0 ∨ d < st.config.minPupilSize ∨ d > st.config.maxPupilSize))
    (hshort : ¬ st.config.calibrationFrames ≤
      (if (st.pupilSizeHistory ++ [d]).length > st.config.maxHistorySize
        then (st.pupilSizeHistory ++ [d]).tail
        else st.pupilSizeHistory ++ [d]).length) :
    observe sq st d = { st with
      leftPupilSize := d, rightPupilSize := d,
      pupilSizeHistory :=
        (if (st.pupilSizeHistory ++ [d]).length > st.config.maxHistorySize
          then (st.pupilSizeHistory ++ [d]).tail
          else st.pupilSizeHistory ++ [d]),
      calibrationProgress := min 100
        (((if (st.pupilSizeHistory ++ [d]).length > st.config.maxHistorySize
            then (st.pupilSizeHistory ++ [d]).tail
            else st.pupilSizeHistory ++ [d]).length : ℚ) /
          (st.config.calibrationFrames : ℚ) * 100) } := by
  unfold observe updateConcentration
  dsimp only
  have havg : (d + d) / 2 = d := by ring
  rw [havg]
  rw [if_neg hgate]
  set hist := (if (st.pupilSizeHistory ++ [d]).length > st.config.maxHistorySize
      then (st.pupilSizeHistory ++ [d]).tail else st.pupilSizeHistory ++ [d]) with hh
  rw [if_neg (show ¬ (st.isCalibrated = false ∧
    st.config.calibrationFrames ≤ hist.length) from fun h => hshort h.2)]
  dsimp only
  rw [if_neg (show ¬ (st.isCalibrated = true ∧ st.baselinePupilSize > 0) from by
    simp [hcal])]

lemma observe_valid_calFail (sq : ℚ → ℚ) (st : TrackerState) (d : ℚ)
    (hcal : st.isCalibrated = false)
    (hgate : ¬ (d ≤ 0 ∨ d < st.config.minPupilSize ∨ d > st.config.maxPupilSize))
    (hfull : st.config.calibrationFrames ≤
      (if (st.pupilSizeHistory ++ [d]).length > st.config.maxHistorySize
        then (st.pupilSizeHistory ++ [d]).tail
        else st.pupilSizeHistory ++ [d]).length)
    (hvfail : ¬ (((((if (st.pupilSizeHistory ++ [d]).length > st.config.maxHistorySize
        then (st.pupilSizeHistory ++ [d]).tail
        else st.pupilSizeHistory ++ [d]).take st.config.calibrationFrames).filter
          fun s => decide (st.config.minPupilSize < s ∧ s < st.config.maxPupilSize)).length : ℚ) ≥
      (st.config.calibrationFrames : ℚ) * (5/10))) :
    observe sq st d = { st with
      leftPupilSize := d, rightPupilSize := d,
      pupilSizeHistory :=
        (if (st.pupilSizeHistory ++ [d]).length > st.config.maxHistorySize
          then (st.pupilSizeHistory ++ [d]).tail
          else st.pupilSizeHistory ++ [d]),
      calibrationProgress := min 100
        (((if (st.pupilSizeHistory ++ [d]).length > st.config.maxHistorySize
            then (st.pupilSizeHistory ++ [d]).tail
            else st.pupilSizeHistory ++ [d]).length : ℚ) /
          (st.config.calibrationFrames : ℚ) * 100) } := by
  unfold observe updateConcentration
  dsimp only
  have havg : (d + d) / 2 = d := by ring
  rw [havg]
  rw [if_neg hgate]
  set hist := (if (st.pupilSizeHistory ++ [d]).length > st.config.maxHistorySize
      then (st.pupilSizeHistory ++ [d]).tail else st.pupilSizeHistory ++ [d]) with hh
  rw [if_pos (show st.isCalibrated = false ∧
    st.config.calibrationFrames ≤ hist.length from ⟨hcal, hfull⟩)]
  rw [if_neg hvfail]
  dsimp only
  rw [if_neg (show ¬ (st.isCalibrated = true ∧ st.baselinePupilSize > 0) from by
    simp [hcal])]

lemma observe_valid_calibrates (sq : ℚ → ℚ) (st : TrackerState) (d : ℚ)
    (hcal : st.isCalibrated = false)
    (hgate : ¬ (d ≤ 0 ∨ d < st.config.minPupilSize ∨ d > st.config.maxPupilSize))
    (hfull : st.config.calibrationFrames ≤
      (if (st.pupilSizeHistory ++ [d]).length > st.config.maxHistorySize
        then (st.pupilSizeHistory ++ [d]).tail
        else st.pupilSizeHistory ++ [d]).length)
    (hvok : ((((if (st.pupilSizeHistory ++ [d]).length > st.config.maxHistorySize
        then (st.pupilSizeHistory ++ [d]).tail
        else st.pupilSizeHistory ++ [d]).take st.config.calibrationFrames).filter
          fun s => decide (st.config.minPupilSize < s ∧ s < st.config.maxPupilSize)).length : ℚ) ≥
      (st.config.calibrationFrames : ℚ) * (5/10)) :
    (observe sq st d).baselinePupilSize =
      (((if (st.pupilSizeHistory ++ [d]).length > st.config.maxHistorySize
          then (st.pupilSizeHistory ++ [d]).tail
          else st.pupilSizeHistory ++ [d]).take st.config.calibrationFrames).filter
            fun s => decide (st.config.minPupilSize < s ∧ s < st.config.maxPupilSize)).sum /
        ((((if (st.pupilSizeHistory ++ [d]).length > st.config.maxHistorySize
          then (st.pupilSizeHistory ++ [d]).tail
          else st.pupilSizeHistory ++ [d]).take st.config.calibrationFrames).filter
            fun s => decide (st.config.minPupilSize < s ∧ s < st.config.maxPupilSize)).length : ℚ) ∧
    (observe sq st d).isCalibrated = true := by
  unfold observe updateConcentration
  dsimp only
  have havg : (d + d) / 2 = d := by ring
  rw [havg]
  rw [if_neg hgate]
  set hist := (if (st.pupilSizeHistory ++ [d]).length > st.config.maxHistorySize
      then (st.pupilSizeHistory ++ [d]).tail else st.pupilSizeHistory ++ [d]) with hh
  rw [if_pos (show st.isCalibrated = false ∧
    st.config.calibrationFrames ≤ hist.length from ⟨hcal, hfull⟩)]
  rw [if_pos hvok]
  dsimp only
  split_ifs <;> exact ⟨rfl, rfl⟩

lemma coreAgree_refl (s : TrackerState) : CoreAgree s s :=
  ⟨rfl, rfl, rfl, rfl, rfl, rfl⟩

lemma observe_congr (sq : ℚ → ℚ) (d : ℚ) {s t : TrackerState} (h : CoreAgree s t) :
    observe sq s d = observe sq t d := by
  obtain ⟨h1, h2, h3, h4, h5, h6⟩ := h
  unfold observe
  have hrec : ({ s with leftPupilSize := d, rightPupilSize := d } : TrackerState) =
      { t with leftPupilSize := d, rightPupilSize := d } := by
    cases s; cases t
    simp_all
  rw [hrec]

lemma runSamples_coreAgree (sq : ℚ → ℚ) (samples : List ℚ) {s t : TrackerState}
    (h : CoreAgree s t) :
    CoreAgree (runSamples sq s samples) (runSamples sq t samples) := by
  induction samples generalizing s t with
  | nil => exact h
  | cons d rest ih =>
    show CoreAgree (runSamples sq (observe sq s d) rest) (runSamples sq (observe sq t d) rest)
    rw [observe_congr sq d h]
    exact ih (coreAgree_refl _)

lemma runSamples_replicate_precal (sq : ℚ → ℚ) (cfg : PupilTrackerConfig) (d : ℚ)
    (hd0 : 0 < d) (hmin : cfg.minPupilSize < d) (hmax : d < cfg.maxPupilSize)
    (hmh : cfg.calibrationFrames ≤ cfg.maxHistorySize) :
    ∀ k, k < cfg.calibrationFrames →
      (runSamples sq (initState cfg) (List.replicate k d)).pupilSizeHistory =
        List.replicate k d ∧
      (runSamples sq (initState cfg) (List.replicate k d)).isCalibrated = false ∧
      (runSamples sq (initState cfg) (List.replicate k d)).baselinePupilSize = 0 ∧
      (runSamples sq (initState cfg) (List.replicate k d)).config = cfg ∧
      (runSamples sq (initState cfg) (List.replicate k d)).concentrationLevel = 0 := by
  intro k
  induction k with
  | zero => intro _; exact ⟨rfl, rfl, rfl, rfl, rfl⟩
  | succ n ih =>
    intro hk
    obtain ⟨hh, hcal2, hb, hc, hl⟩ := ih (by omega)
    have hstep : List.replicate (n+1) d = List.replicate n d ++ [d] := by
      rw [List.replicate_succ']
    rw [hstep]
    have hrun : runSamples sq (initState cfg) (List.replicate n d ++ [d]) =
        observe sq (runSamples sq (initState cfg) (List.replicate n d)) d := by
      unfold runSamples
      rw [List.foldl_append]
      rfl
    rw [hrun]
    set stn := runSamples sq (initState cfg) (List.replicate n d) with hstn
    have hpush : stn.pupilSizeHistory ++ [d] = List.replicate (n+1) d := by
      rw [hh, ← List.replicate_succ']
    have hplen : (stn.pupilSizeHistory ++ [d]).length = n + 1 := by
      rw [hpush]; simp
    have hnoshift : ¬ (stn.pupilSizeHistory ++ [d]).length > stn.config.maxHistorySize := by
      rw [hplen, hc]; omega
    have hifeq : (if (stn.pupilSizeHistory ++ [d]).length > stn.config.maxHistorySize
        then (stn.pupilSizeHistory ++ [d]).tail else stn.pupilSizeHistory ++ [d]) =
        List.replicate (n+1) d := by rw [if_neg hnoshift, hpush]
    have hgate : ¬ (d ≤ 0 ∨ d < stn.config.minPupilSize ∨ d > stn.config.maxPupilSize) := by
      rw [hc]; push_neg; exact ⟨hd0, le_of_lt hmin, le_of_lt hmax⟩
    have hshort : ¬ stn.config.calibrationFrames ≤
        (if (stn.pupilSizeHistory ++ [d]).length > stn.config.maxHistorySize
          then (stn.pupilSizeHistory ++ [d]).tail
          else stn.pupilSizeHistory ++ [d]).length := by
      rw [hifeq, hc]; simp; omega
    rw [observe_valid_noCalCheck sq stn d hcal2 hgate hshort]
    dsimp only
    rw [hstep] at hifeq
    exact ⟨hifeq, hcal2, hb, hc, hl⟩

lemma observe_calibrates_replicate (sq : ℚ → ℚ) (cfg : PupilTrackerConfig) (d : ℚ)
    (n : ℕ) (st : TrackerState) (hc : st.config = cfg) (hcal : st.isCalibrated = false)
    (hh : st.pupilSizeHistory = List.replicate n d) (hn : cfg.calibrationFrames = n + 1)
    (hd0 : 0 < d) (hmin : cfg.minPupilSize < d) (hmax : d < cfg.maxPupilSize)
    (hmh : cfg.calibrationFrames ≤ cfg.maxHistorySize) :
    (observe sq st d).baselinePupilSize = d ∧ (observe sq st d).isCalibrated = true := by
  have hpush : st.pupilSizeHistory ++ [d] = List.replicate (n+1) d := by
    rw [hh, ← List.replicate_succ']
  have hnoshift : ¬ (st.pupilSizeHistory ++ [d]).length > st.config.maxHistorySize := by
    rw [hpush, hc]
    simp
    omega
  have hifeq : (if (st.pupilSizeHistory ++ [d]).length > st.config.maxHistorySize
      then (st.pupilSizeHistory ++ [d]).tail else st.pupilSizeHistory ++ [d]) =
      List.replicate (n+1) d := by rw [if_neg hnoshift, hpush]
  have hgate : ¬ (d ≤ 0 ∨ d < st.config.minPupilSize ∨ d > st.config.maxPupilSize) := by
    rw [hc]; push_neg; exact ⟨hd0, le_of_lt hmin, le_of_lt hmax⟩
  have htake : (List.replicate (n+1) d).take st.config.calibrationFrames =
      List.replicate (n+1) d := by
    rw [hc, hn, List.take_replicate]
    simp
  have hfilter : (List.replicate (n+1) d).filter
      (fun s => decide (st.config.minPupilSize < s ∧ s < st.config.maxPupilSize)) =
      List.replicate (n+1) d := by
    rw [List.filter_eq_self]
    intro a ha
    rw [List.eq_of_mem_replicate ha, hc]
    simp [hmin, hmax]
  have hfull : st.config.calibrationFrames ≤
      (if (st.pupilSizeHistory ++ [d]).length > st.config.maxHistorySize
        then (st.pupilSizeHistory ++ [d]).tail
        else st.pupilSizeHistory ++ [d]).length := by
    rw [hifeq, hc, hn]; simp
  have hvok : ((((if (st.pupilSizeHistory ++ [d]).length > st.config.maxHistorySize
      then (st.pupilSizeHistory ++ [d]).tail
      else st.pupilSizeHistory ++ [d]).take st.config.calibrationFrames).filter
        fun s => decide (st.config.minPupilSize < s ∧ s < st.config.maxPupilSize)).length : ℚ) ≥
      (st.config.calibrationFrames : ℚ) * (5/10) := by
    rw [hifeq, htake, hfilter, hc, hn, List.length_replicate]
    have h0 : (0:ℚ) ≤ (n : ℚ) := by positivity
    push_cast
    nlinarith [h0]
  obtain ⟨hbase, hcal2⟩ := observe_valid_calibrates sq st d hcal hgate hfull hvok
  refine ⟨?_, hcal2⟩
  rw [hbase, hifeq, htake, hfilter]
  have hsum : (List.replicate (n+1) d).sum = ((n+1 : ℕ) : ℚ) * d := by
    rw [List.sum_replicate, nsmul_eq_mul]
  have hlen : ((List.replicate (n+1) d).length : ℚ) = ((n+1 : ℕ) : ℚ) := by simp
  rw [hsum, hlen]
  have hne : ((n+1 : ℕ) : ℚ) ≠ 0 := by positivity
  field_simp

lemma runSamples_boundary_never_calibrates (sq : ℚ → ℚ) (cfg : PupilTrackerConfig)
    (v : ℚ) (hv0 : 0 < v) (hvmin : cfg.minPupilSize ≤ v) (hvmax : v ≤ cfg.maxPupilSize)
    (hvfail : ¬ (cfg.minPupilSize < v ∧ v < cfg.maxPupilSize))
    (hcf : 1 ≤ cfg.calibrationFrames) :
    ∀ n,
      (runSamples sq (initState cfg) (List.replicate n v)).pupilSizeHistory =
        List.replicate (min n cfg.maxHistorySize) v ∧
      (runSamples sq (initState cfg) (List.replicate n v)).isCalibrated = false ∧
      (runSamples sq (initState cfg) (List.replicate n v)).baselinePupilSize = 0 ∧
      (runSamples sq (initState cfg) (List.replicate n v)).config = cfg ∧
      (runSamples sq (initState cfg) (List.replicate n v)).calibrationProgress =
        min 100 (((min n cfg.maxHistorySize : ℕ) : ℚ) /
          (cfg.calibrationFrames : ℚ) * 100) := by
  intro n
  induction n with
  | zero =>
    refine ⟨?_, rfl, rfl, rfl, ?_⟩
    · show ([] : List ℚ) = List.replicate (min 0 cfg.maxHistorySize) v
      simp
    · show (0:ℚ) = min 100 (((min 0 cfg.maxHistorySize : ℕ) : ℚ) /
        (cfg.calibrationFrames : ℚ) * 100)
      simp
  | succ n ih =>
    obtain ⟨hh, hcal2, hb, hc, hp⟩ := ih
    have hstep : List.replicate (n+1) v = List.replicate n v ++ [v] := by
      rw [List.replicate_succ']
    rw [hstep]
    have hrun : runSamples sq (initState cfg) (List.replicate n v ++ [v]) =
        observe sq (runSamples sq (initState cfg) (List.replicate n v)) v := by
      unfold runSamples
      rw [List.foldl_append]
      rfl
    rw [hrun]
    set stn := runSamples sq (initState cfg) (List.replicate n v) with hstn
    have hgate : ¬ (v ≤ 0 ∨ v < stn.config.minPupilSize ∨ v > stn.config.maxPupilSize) := by
      rw [hc]; push_neg; exact ⟨hv0, hvmin, hvmax⟩
    have hfilterNil : ∀ m, (List.replicate m v).filter
        (fun s => decide (cfg.minPupilSize < s ∧ s < cfg.maxPupilSize)) = [] := by
      intro m
      rw [List.filter_eq_nil_iff]
      intro a ha
      rw [List.eq_of_mem_replicate ha]
      simpa using hvfail
    have hcfQ : (1:ℚ) ≤ (cfg.calibrationFrames : ℚ) := by exact_mod_cast hcf
    -- the new history after push and possible shift
    rcases lt_or_le n cfg.maxHistorySize with hlt | hge
    · -- no shift
      have hmin1 : min n cfg.maxHistorySize = n := min_eq_left (le_of_lt hlt)
      have hmin2 : min (n+1) cfg.maxHistorySize = n + 1 := min_eq_left (by omega)
      have hpush : stn.pupilSizeHistory ++ [v] = List.replicate (n+1) v := by
        rw [hh, hmin1, ← List.replicate_succ']
      have hnoshift : ¬ (stn.pupilSizeHistory ++ [v]).length > stn.config.maxHistorySize := by
        rw [hpush, hc]; simp; omega
      have hifeq : (if (stn.pupilSizeHistory ++ [v]).length > stn.config.maxHistorySize
          then (stn.pupilSizeHistory ++ [v]).tail else stn.pupilSizeHistory ++ [v]) =
          List.replicate (n+1) v := by rw [if_neg hnoshift, hpush]
      rcases lt_or_le (n+1) cfg.calibrationFrames with hshort | hfull
      · have hshort2 : ¬ stn.config.calibrationFrames ≤
            (if (stn.pupilSizeHistory ++ [v]).length > stn.config.maxHistorySize
              then (stn.pupilSizeHistory ++ [v]).tail
              else stn.pupilSizeHistory ++ [v]).length := by
          rw [hifeq, hc]; simp; omega
        rw [observe_valid_noCalCheck sq stn v hcal2 hgate hshort2]
        refine ⟨by rw [hmin2]; exact hifeq, hcal2, hb, hc, ?_⟩
        show min 100 (((if (stn.pupilSizeHistory ++ [v]).length > stn.config.maxHistorySize
            then (stn.pupilSizeHistory ++ [v]).tail
            else stn.pupilSizeHistory ++ [v]).length : ℚ) /
          (stn.config.calibrationFrames : ℚ) * 100) = _
        rw [hifeq, hc, hmin2]
        simp
      · have hfull2 : stn.config.calibrationFrames ≤
            (if (stn.pupilSizeHistory ++ [v]).length > stn.config.maxHistorySize
              then (stn.pupilSizeHistory ++ [v]).tail
              else stn.pupilSizeHistory ++ [v]).length := by
          rw [hifeq, hc]; simp; omega
        have hvfail2 : ¬ (((((if (stn.pupilSizeHistory ++ [v]).length > stn.config.maxHistorySize
            then (stn.pupilSizeHistory ++ [v]).tail
            else stn.pupilSizeHistory ++ [v]).take stn.config.calibrationFrames).filter
              fun s => decide (stn.config.minPupilSize < s ∧ s < stn.config.maxPupilSize)).length : ℚ) ≥
            (stn.config.calibrationFrames : ℚ) * (5/10)) := by
          rw [hifeq, hc, List.take_replicate, hfilterNil]
          simp
          nlinarith [hcfQ]
        rw [observe_valid_calFail sq stn v hcal2 hgate hfull2 hvfail2]
        refine ⟨by rw [hmin2]; exact hifeq, hcal2, hb, hc, ?_⟩
        show min 100 (((if (stn.pupilSizeHistory ++ [v]).length > stn.config.maxHistorySize
            then (stn.pupilSizeHistory ++ [v]).tail
            else stn.pupilSizeHistory ++ [v]).length : ℚ) /
          (stn.config.calibrationFrames : ℚ) * 100) = _
        rw [hifeq, hc, hmin2]
        simp
    · -- shift: history already at capacity
      have hmin1 : min n cfg.maxHistorySize = cfg.maxHistorySize := min_eq_right hge
      have hmin2 : min (n+1) cfg.maxHistorySize = cfg.maxHistorySize :=
        min_eq_right (by omega)
      have hpush : stn.pupilSizeHistory ++ [v] =
          List.replicate (cfg.maxHistorySize + 1) v := by
        rw [hh, hmin1, ← List.replicate_succ']
      have hshift : (stn.pupilSizeHistory ++ [v]).length > stn.config.maxHistorySize := by
        rw [hpush, hc]; simp
      have htail : (List.replicate (cfg.maxHistorySize + 1) v).tail =
          List.replicate cfg.maxHistorySize v := by
        rw [List.replicate_succ]
        rfl
      have hifeq : (if (stn.pupilSizeHistory ++ [v]).length > stn.config.maxHistorySize
          then (stn.pupilSizeHistory ++ [v]).tail else stn.pupilSizeHistory ++ [v]) =
          List.replicate cfg.maxHistorySize v := by
        rw [if_pos hshift, hpush, htail]
      rcases lt_or_le cfg.maxHistorySize cfg.calibrationFrames with hshort | hfull
      · have hshort2 : ¬ stn.config.calibrationFrames ≤
            (if (stn.pupilSizeHistory ++ [v]).length > stn.config.maxHistorySize
              then (stn.pupilSizeHistory ++ [v]).tail
              else stn.pupilSizeHistory ++ [v]).length := by
          rw [hifeq, hc]; simp; omega
        rw [observe_valid_noCalCheck sq stn v hcal2 hgate hshort2]
        refine ⟨by rw [hmin2]; exact hifeq, hcal2, hb, hc, ?_⟩
        show min 100 (((if (stn.pupilSizeHistory ++ [v]).length > stn.config.maxHistorySize
            then (stn.pupilSizeHistory ++ [v]).tail
            else stn.pupilSizeHistory ++ [v]).length : ℚ) /
          (stn.config.calibrationFrames : ℚ) * 100) = _
        rw [hifeq, hc, hmin2]
        simp
      · have hfull2 : stn.config.calibrationFrames ≤
            (if (stn.pupilSizeHistory ++ [v]).length > stn.config.maxHistorySize
              then (stn.pupilSizeHistory ++ [v]).tail
              else stn.pupilSizeHistory ++ [v]).length := by
          rw [hifeq, hc]; simp; omega
        have hvfail2 : ¬ (((((if (stn.pupilSizeHistory ++ [v]).length > stn.config.maxHistorySize
            then (stn.pupilSizeHistory ++ [v]).tail
            else stn.pupilSizeHistory ++ [v]).take stn.config.calibrationFrames).filter
              fun s => decide (stn.config.minPupilSize < s ∧ s < stn.config.maxPupilSize)).length : ℚ) ≥
            (stn.config.calibrationFrames : ℚ) * (5/10)) := by
          rw [hifeq, hc, List.take_replicate, hfilterNil]
          simp
          nlinarith [hcfQ]
        rw [observe_valid_calFail sq stn v hcal2 hgate hfull2 hvfail2]
        refine ⟨by rw [hmin2]; exact hifeq, hcal2, hb, hc, ?_⟩
        show min 100 (((if (stn.pupilSizeHistory ++ [v]).length > stn.config.maxHistorySize
            then (stn.pupilSizeHistory ++ [v]).tail
            else stn.pupilSizeHistory ++ [v]).length : ℚ) /
          (stn.config.calibrationFrames : ℚ) * 100) = _
        rw [hifeq, hc, hmin2]
        simp

lemma observe_config (sq : ℚ → ℚ) (st : TrackerState) (d : ℚ) :
    (observe sq st d).config = st.config := by
  unfold observe
  rw [updateConcentration_config]

lemma runSamples_config (sq : ℚ → ℚ) (samples : List ℚ) :
    ∀ st : TrackerState, (runSamples sq st samples).config = st.config := by
  induction samples with
  | nil => intro st; rfl
  | cons d rest ih =>
    intro st
    show (runSamples sq (observe sq st d) rest).config = st.config
    rw [ih, observe_config]

end ObserveLemmas

/-- C4 — feeding `calibrationFrames` identical valid samples `d` (with
`minPupilDiameter < d < maxPupilDiameter`) from the uncalibrated initial
state sets `baselineDiameter = d` and `isCalibrated = true`; and in
general, on the valid sample that brings an uncalibrated history to at
least `calibrationFrames` entries, the first `calibrationFrames` samples
are filtered to those strictly within the pupil-size bounds, and when the
survivor count reaches half the window the baseline becomes the survivors'
arithmetic mean and calibration completes. -/
theorem calibration_first_window (sq : ℚ → ℚ) (cfg : PupilTrackerConfig) (d : ℚ)
    (hd0 : 0 < d) (hmin : cfg.minPupilSize < d) (hmax : d < cfg.maxPupilSize)
    (hcf : 1 ≤ cfg.calibrationFrames) (hmh : cfg.calibrationFrames ≤ cfg.maxHistorySize) :
    ((runSamples sq (initState cfg)
        (List.replicate cfg.calibrationFrames d)).baselinePupilSize = d ∧
      (runSamples sq (initState cfg)
        (List.replicate cfg.calibrationFrames d)).isCalibrated = true) ∧
    (∀ (st : TrackerState) (x : ℚ), st.isCalibrated = false →
      ¬ (x ≤ 0 ∨ x < st.config.minPupilSize ∨ x > st.config.maxPupilSize) →
      st.config.calibrationFrames ≤
        (if (st.pupilSizeHistory ++ [x]).length > st.config.maxHistorySize
          then (st.pupilSizeHistory ++ [x]).tail
          else st.pupilSizeHistory ++ [x]).length →
      ((((if (st.pupilSizeHistory ++ [x]).length > st.config.maxHistorySize
          then (st.pupilSizeHistory ++ [x]).tail
          else st.pupilSizeHistory ++ [x]).take st.config.calibrationFrames).filter
            fun s => decide (st.config.minPupilSize < s ∧ s < st.config.maxPupilSize)).length : ℚ) ≥
        (st.config.calibrationFrames : ℚ) * (5/10) →
      (observe sq st x).baselinePupilSize =
        (((if (st.pupilSizeHistory ++ [x]).length > st.config.maxHistorySize
            then (st.pupilSizeHistory ++ [x]).tail
            else st.pupilSizeHistory ++ [x]).take st.config.calibrationFrames).filter
              fun s => decide (st.config.minPupilSize < s ∧ s < st.config.maxPupilSize)).sum /
          ((((if (st.pupilSizeHistory ++ [x]).length > st.config.maxHistorySize
            then (st.pupilSizeHistory ++ [x]).tail
            else st.pupilSizeHistory ++ [x]).take st.config.calibrationFrames).filter
              fun s => decide (st.config.minPupilSize < s ∧ s < st.config.maxPupilSize)).length : ℚ) ∧
      (observe sq st x).isCalibrated = true) := by
  constructor
  · obtain ⟨n, hn⟩ : ∃ n, cfg.calibrationFrames = n + 1 :=
      ⟨cfg.calibrationFrames - 1, by omega⟩
    obtain ⟨hh, hcal2, hb, hc, hl⟩ :=
      runSamples_replicate_precal sq cfg d hd0 hmin hmax hmh n (by omega)
    have hsplit : List.replicate cfg.calibrationFrames d = List.replicate n d ++ [d] := by
      rw [hn, List.replicate_succ']
    rw [hsplit]
    have hrun : runSamples sq (initState cfg) (List.replicate n d ++ [d]) =
        observe sq (runSamples sq (initState cfg) (List.replicate n d)) d := by
      unfold runSamples
      rw [List.foldl_append]
      rfl
    rw [hrun]
    exact observe_calibrates_replicate sq cfg d n _ hc hcal2 hh hn hd0 hmin hmax hmh
  · intro st x h1 h2 h3 h4
    exact observe_valid_calibrates sq st x h1 h2 h3 h4

/-- Witness for C4 at the default configuration with diameter 4. -/
theorem calibration_first_window_witness :
    (runSamples (fun q => q) (initState defaultConfig)
      (List.replicate defaultConfig.calibrationFrames 4)).baselinePupilSize = 4 ∧
    (runSamples (fun q => q) (initState defaultConfig)
      (List.replicate defaultConfig.calibrationFrames 4)).isCalibrated = true :=
  (calibration_first_window (fun q => q) defaultConfig 4 (by norm_num)
    (by norm_num [defaultConfig]) (by norm_num [defaultConfig])
    (by norm_num [defaultConfig]) (by norm_num [defaultConfig])).1

/-- C9 — `recalibrate` (while tracking) restores every calibration-relevant
field to its initial value while keeping the configuration, and re-feeding
the sequence of valid samples that originally produced calibration yields
the same baseline (exactly, in this rational model) with
`isCalibrated = true` again. -/
theorem recalibrate_roundtrip (sq : ℚ → ℚ) (cfg : PupilTrackerConfig)
    (st : TrackerState) (samples : List ℚ) (b : ℚ) (hcfg : st.config = cfg)
    (hcal : (runSamples sq (initState cfg) samples).isCalibrated = true)
    (hbase : (runSamples sq (initState cfg) samples).baselinePupilSize = b) :
    CoreAgree (recalibrate true st) (initState cfg) ∧
    (runSamples sq (recalibrate true st) samples).isCalibrated = true ∧
    (runSamples sq (recalibrate true st) samples).baselinePupilSize = b := by
  have hra : CoreAgree (recalibrate true st) (initState cfg) := by
    show CoreAgree (resetCalibration st) (initState cfg)
    exact ⟨hcfg, rfl, rfl, rfl, rfl, rfl⟩
  obtain ⟨-, -, h3, -, h5, -⟩ := runSamples_coreAgree sq samples hra
  refine ⟨hra, ?_, ?_⟩
  · rw [h5]; exact hcal
  · rw [h3]; exact hbase

/-- Witness for C9: a two-sample calibration at diameter 4, recalibration,
and an identical re-feed reproduce baseline 4. -/
theorem recalibrate_roundtrip_witness :
    (runSamples (fun q => q)
      (recalibrate true (runSamples (fun q => q) (initState wCfg) [4, 4]))
      [4, 4]).isCalibrated = true ∧
    (runSamples (fun q => q)
      (recalibrate true (runSamples (fun q => q) (initState wCfg) [4, 4]))
      [4, 4]).baselinePupilSize = 4 := by
  have hgate : ¬ ((4:ℚ) ≤ 0 ∨ (4:ℚ) < (initState wCfg).config.minPupilSize ∨
      (4:ℚ) > (initState wCfg).config.maxPupilSize) := by
    norm_num [initState, wCfg]
  have hshort : ¬ (initState wCfg).config.calibrationFrames ≤
      (if ((initState wCfg).pupilSizeHistory ++ [4]).length >
          (initState wCfg).config.maxHistorySize
        then ((initState wCfg).pupilSizeHistory ++ [4]).tail
        else (initState wCfg).pupilSizeHistory ++ [4]).length := by
    norm_num [initState, wCfg]
  have h1 := observe_valid_noCalCheck (fun q => q) (initState wCfg) 4 rfl hgate hshort
  have hrun2 : runSamples (fun q => q) (initState wCfg) [4, 4] =
      observe (fun q => q) (observe (fun q => q) (initState wCfg) 4) 4 := rfl
  have hcfg1 : (observe (fun q => q) (initState wCfg) 4).config = wCfg := by
    rw [observe_config]
    rfl
  have hcal1 : (observe (fun q => q) (initState wCfg) 4).isCalibrated = false := by
    rw [h1]
    rfl
  have hh1 : (observe (fun q => q) (initState wCfg) 4).pupilSizeHistory =
      List.replicate 1 4 := by
    rw [h1]
    show (if ((initState wCfg).pupilSizeHistory ++ [4]).length >
        (initState wCfg).config.maxHistorySize
      then ((initState wCfg).pupilSizeHistory ++ [4]).tail
      else (initState wCfg).pupilSizeHistory ++ [4]) = List.replicate 1 4
    norm_num [initState, wCfg]
  have hfin := observe_calibrates_replicate (fun q => q) wCfg 4 1
    (observe (fun q => q) (initState wCfg) 4) hcfg1 hcal1 hh1 (by norm_num [wCfg])
    (by norm_num) (by norm_num [wCfg]) (by norm_num [wCfg]) (by norm_num [wCfg])
  have hcal2 : (runSamples (fun q => q) (initState wCfg) [4, 4]).isCalibrated = true := by
    rw [hrun2]; exact hfin.2
  have hbase2 : (runSamples (fun q => q) (initState wCfg) [4, 4]).baselinePupilSize = 4 := by
    rw [hrun2]; exact hfin.1
  have hcfg2 : (runSamples (fun q => q) (initState wCfg) [4, 4]).config = wCfg := by
    rw [runSamples_config]; rfl
  exact (recalibrate_roundtrip (fun q => q) wCfg
    (runSamples (fun q => q) (initState wCfg) [4, 4]) [4, 4] 4 hcfg2 hcal2 hbase2).2

/-- C10 — boundary mismatch between the validity gate and the calibration
filter: samples exactly equal to `minPupilSize` (or `maxPupilSize`) pass
the gate, enter the history and advance `calibrationProgress`, yet the
filter's strict inequalities exclude them, so a calibration window made
entirely of boundary-valued samples never completes calibration. -/
theorem boundary_gate_filter_mismatch (sq : ℚ → ℚ) (cfg : PupilTrackerConfig)
    (h0 : 0 < cfg.minPupilSize) (h1 : cfg.minPupilSize ≤ cfg.maxPupilSize)
    (hcf : 1 ≤ cfg.calibrationFrames) :
    (∀ n,
      (runSamples sq (initState cfg)
        (List.replicate n cfg.minPupilSize)).pupilSizeHistory =
        List.replicate (min n cfg.maxHistorySize) cfg.minPupilSize ∧
      (runSamples sq (initState cfg)
        (List.replicate n cfg.minPupilSize)).calibrationProgress =
        min 100 (((min n cfg.maxHistorySize : ℕ) : ℚ) /
          (cfg.calibrationFrames : ℚ) * 100) ∧
      (runSamples sq (initState cfg)
        (List.replicate n cfg.minPupilSize)).isCalibrated = false ∧
      (runSamples sq (initState cfg)
        (List.replicate n cfg.minPupilSize)).baselinePupilSize = 0) ∧
    (∀ n,
      (runSamples sq (initState cfg)
        (List.replicate n cfg.maxPupilSize)).isCalibrated = false ∧
      (runSamples sq (initState cfg)
        (List.replicate n cfg.maxPupilSize)).baselinePupilSize = 0) ∧
    (List.replicate cfg.calibrationFrames cfg.minPupilSize).filter
      (fun s => decide (cfg.minPupilSize < s ∧ s < cfg.maxPupilSize)) = [] ∧
    (List.replicate cfg.calibrationFrames cfg.maxPupilSize).filter
      (fun s => decide (cfg.minPupilSize < s ∧ s < cfg.maxPupilSize)) = [] := by
  have hminrun := runSamples_boundary_never_calibrates sq cfg cfg.minPupilSize h0
    le_rfl h1 (by simp) hcf
  have hmaxrun := runSamples_boundary_never_calibrates sq cfg cfg.maxPupilSize
    (lt_of_lt_of_le h0 h1) h1 le_rfl (by simp) hcf
  refine ⟨fun n => ?_, fun n => ?_, ?_, ?_⟩
  · obtain ⟨ha, hb, hc, -, hd⟩ := hminrun n
    exact ⟨ha, hd, hb, hc⟩
  · obtain ⟨-, hb, hc, -, -⟩ := hmaxrun n
    exact ⟨hb, hc⟩
  · rw [List.filter_eq_nil_iff]
    intro a ha
    rw [List.eq_of_mem_replicate ha]
    simp
  · rw [List.filter_eq_nil_iff]
    intro a ha
    rw [List.eq_of_mem_replicate ha]
    simp

/-- Witness for C10 at the default configuration after 30 boundary
samples. -/
theorem boundary_gate_filter_mismatch_witness :
    (runSamples (fun q => q) (initState defaultConfig)
      (List.replicate 30 defaultConfig.minPupilSize)).isCalibrated = false ∧
    (runSamples (fun q => q) (initState defaultConfig)
      (List.replicate 30 defaultConfig.minPupilSize)).pupilSizeHistory =
      List.replicate (min 30 defaultConfig.maxHistorySize) defaultConfig.minPupilSize := by
  have h := (boundary_gate_filter_mismatch (fun q => q) defaultConfig
    (by norm_num [defaultConfig]) (by norm_num [defaultConfig])
    (by norm_num [defaultConfig])).1 30
  exact ⟨h.2.2.1, h.1⟩

end PupilTracker
